import Mathlib

/-!
Shallow embedding of `src/pc_test/monitor_process.py`, the process-tree
resource monitor, together with proofs about its behaviour.

Modelling conventions:
- Every external call (psutil process lookups and attribute reads, pynvml
  device queries) is an oracle supplied by an `Env`.  A call either returns
  a value or raises an exception; both exception kinds modelled here derive
  from Python's `Exception`, so a bare `except Exception:` handler catches
  either of them.  The operator's keyboard interrupt is asynchronous and is
  modelled as the external event that bounds the number of completed ticks,
  not as a value returned by a call.
- Call results are indexed by a resolution time `t : Nat`: the warm-up
  phase before the loop observes the world at `t = 0`, and sampling tick
  `i` observes it at `t = i + 1`.
- Python floats are modelled as rationals; the claims under study do not
  concern rounding.
- A CSV cell that is either a number or the empty string is modelled as
  `Option ℚ`: `some q` is the number `q`, `none` is the empty string `""`
  (which is distinct from the number `0`).
-/

namespace MonitorProc

/-- The two exception kinds the monitor's calls can raise.  `noSuchProcess`
is psutil's NoSuchProcess; `otherError` stands for any other
`Exception`-derived error (AccessDenied, NVML errors, ...).  A Python
`except Exception:` catches both kinds. -/
inductive Exn
  | noSuchProcess
  | otherError
deriving DecidableEq

/-- A psutil process handle, identified abstractly. -/
abbrev Handle := Nat

/-- One entry of an NVML running-process listing: a pid and its
`usedGpuMemory` field, which the driver may report as unknown (None). -/
structure GpuEntry where
  pid : Nat
  usedGpuMemory : Option Int
deriving DecidableEq

/-- The external world the monitor runs against.  Each field is one of the
library calls the source performs, indexed by resolution time where the
result can change between calls. -/
structure Env where
  /-- `p.pid` attribute of a handle (an attribute read, never raises). -/
  pidOf : Handle → Nat
  /-- `psutil.Process(pid)` at monitor startup. -/
  psutilProcess : Nat → Except Exn Handle
  /-- `root.children(recursive=True)` at resolution time `t`. -/
  children : Nat → Handle → Except Exn (List Handle)
  /-- `p.is_running()` at resolution time `t`. -/
  is_running : Nat → Handle → Except Exn Bool
  /-- `p.cpu_percent(None)` at resolution time `t`. -/
  cpu_percent : Nat → Handle → Except Exn ℚ
  /-- `p.memory_info().rss` in bytes at resolution time `t`. -/
  rss_bytes : Nat → Handle → Except Exn ℚ
  /-- `p.num_threads()` at resolution time `t`. -/
  num_threads : Nat → Handle → Except Exn Nat
  /-- `time.time() - start` as observed when writing the row of tick `i`. -/
  elapsed : Nat → ℚ
  /-- the module-level `from pynvml import *; nvmlInit(); handle = ...`:
  succeeds or raises, exactly once per run. -/
  gpuInit : Except Exn Unit
  /-- `nvmlDeviceGetUtilizationRates(handle).gpu` at tick time `t`. -/
  gpu_util_rate : Nat → Except Exn ℚ
  /-- `nvmlDeviceGetMemoryInfo(handle).used` in bytes at tick time `t`. -/
  gpu_mem_used : Nat → Except Exn ℚ
  /-- `nvmlDeviceGetComputeRunningProcesses(handle)` at tick time `t`. -/
  computeProcs : Nat → Except Exn (List GpuEntry)
  /-- `nvmlDeviceGetGraphicsRunningProcesses(handle)` at tick time `t`. -/
  graphicsProcs : Nat → Except Exn (List GpuEntry)

/-- `GPU_AVAILABLE`: true iff the module-level NVML initialization
succeeded.  Computed once per run, never re-evaluated. -/
def GPU_AVAILABLE (env : Env) : Bool :=
  match env.gpuInit with
  | .ok _ => true
  | .error _ => false

/-- `_safe_process`: `psutil.Process(pid)`, catching only NoSuchProcess
(which yields `none`); any other exception propagates. -/
def safe_process (env : Env) (pid : Nat) : Except Exn (Option Handle) :=
  match env.psutilProcess pid with
  | .ok h => .ok (some h)
  | .error .noSuchProcess => .ok none
  | .error .otherError => .error .otherError

/-- The candidate list built by `_get_proc_tree` before filtering:
`procs = [root]` extended with `root.children(recursive=True)`, where any
enumeration failure is swallowed and treated as no children. -/
def treeCandidates (env : Env) (t : Nat) (root : Handle) : List Handle :=
  root ::
    (match env.children t root with
     | .ok cs => cs
     | .error _ => [])

/-- Whether an `is_running()` call returned True: an exception or a False
return both lead to the handle being dropped (the exception through
`except Exception: continue`, after the pid was already added to `seen`,
the False return by skipping the append). -/
def runningTrue (r : Except Exn Bool) : Bool :=
  match r with
  | .ok true => true
  | .ok false => false
  | .error _ => false

/-- The `for p in procs` filtering loop of `_get_proc_tree`: skip a handle
whose pid was already seen; otherwise record its pid as seen, then keep the
handle only when `p.is_running()` returns True. -/
def treeLoop (env : Env) (t : Nat) : List Handle → List Nat → List Handle
  | [], _ => []
  | p :: ps, seen =>
    if env.pidOf p ∈ seen then
      treeLoop env t ps seen
    else if runningTrue (env.is_running t p) then
      p :: treeLoop env t ps (env.pidOf p :: seen)
    else
      treeLoop env t ps (env.pidOf p :: seen)

/-- `_get_proc_tree`: de-duplicated list of root plus all recursive
children that are alive, observed at resolution time `t`. -/
def get_proc_tree (env : Env) (t : Nat) (root : Handle) : List Handle :=
  treeLoop env t (treeCandidates env t root) []

/-- `_warmup_cpu(procs)` attempts exactly one discarded `cpu_percent(None)`
read per element of its input, in order, ignoring failures; its observable
effect is this read trace. -/
def warmup_cpu (procs : List Handle) : List Handle := procs

/-- The discarded warm-up reads the monitor performs: the single
`_warmup_cpu(_get_proc_tree(root))` call before the loop, at resolution
time `0`.  No other discarded read is ever issued. -/
def warmupReads (env : Env) (root : Handle) : List Handle :=
  warmup_cpu (get_proc_tree env 0 root)

/-- Accumulator of `_sum_cpu_mem_threads`. -/
structure Agg where
  cpu_sum : ℚ
  rss_sum_mb : ℚ
  threads_sum : Nat
  alive : Nat
deriving DecidableEq

/-- The body of the `for p in procs` loop of `_sum_cpu_mem_threads`: the
three reads run in order inside one `try`; a failure jumps to
`except Exception: continue`, keeping whatever was already added to the
earlier sums. -/
def sampleOne (env : Env) (t : Nat) (acc : Agg) (p : Handle) : Agg :=
  match env.cpu_percent t p with
  | .error _ => acc
  | .ok c =>
    match env.rss_bytes t p with
    | .error _ => { acc with cpu_sum := acc.cpu_sum + c }
    | .ok r =>
      match env.num_threads t p with
      | .error _ =>
          { acc with
            cpu_sum := acc.cpu_sum + c
            rss_sum_mb := acc.rss_sum_mb + r / 1024 / 1024 }
      | .ok n =>
          { cpu_sum := acc.cpu_sum + c
            rss_sum_mb := acc.rss_sum_mb + r / 1024 / 1024
            threads_sum := acc.threads_sum + n
            alive := acc.alive + 1 }

/-- `_sum_cpu_mem_threads(procs)` at resolution time `t`. -/
def sum_cpu_mem_threads (env : Env) (t : Nat) (procs : List Handle) : Agg :=
  procs.foldl (sampleOne env t) ⟨0, 0, 0, 0⟩

/-- Whether `p.cpu_percent(None)` succeeds at time `t`. -/
def okCpu (env : Env) (t : Nat) (p : Handle) : Bool :=
  match env.cpu_percent t p with
  | .ok _ => true
  | .error _ => false

/-- Whether both `cpu_percent` and `memory_info` succeed at time `t`. -/
def okCpuRss (env : Env) (t : Nat) (p : Handle) : Bool :=
  okCpu env t p &&
    (match env.rss_bytes t p with
     | .ok _ => true
     | .error _ => false)

/-- Whether all three metric reads succeed at time `t`. -/
def okAll (env : Env) (t : Nat) (p : Handle) : Bool :=
  okCpuRss env t p &&
    (match env.num_threads t p with
     | .ok _ => true
     | .error _ => false)

/-- The cpu value read at time `t` (0 when the read fails; only consulted
under `okCpu`). -/
def cpuVal (env : Env) (t : Nat) (p : Handle) : ℚ :=
  match env.cpu_percent t p with
  | .ok c => c
  | .error _ => 0

/-- The rss value read at time `t` (0 when the read fails). -/
def rssVal (env : Env) (t : Nat) (p : Handle) : ℚ :=
  match env.rss_bytes t p with
  | .ok r => r
  | .error _ => 0

/-- The thread count read at time `t` (0 when the read fails). -/
def thrVal (env : Env) (t : Nat) (p : Handle) : Nat :=
  match env.num_threads t p with
  | .ok n => n
  | .error _ => 0

/-- `_get_gpu_overall()` at tick time `t`: `(none, none)` models the
source's `("", "")`.  Both device queries sit in one `try`, so a failure of
either blanks both fields. -/
def get_gpu_overall (env : Env) (t : Nat) : Option ℚ × Option ℚ :=
  if GPU_AVAILABLE env = false then (none, none)
  else
    match env.gpu_util_rate t, env.gpu_mem_used t with
    | .ok u, .ok m => (some u, some (m / 1024 / 1024))
    | .ok _, .error _ => (none, none)
    | .error _, .ok _ => (none, none)
    | .error _, .error _ => (none, none)

/-- The per-entry test of `_get_gpu_mem_for_pids`:
`p.pid in target_pids and p.usedGpuMemory not in (None, 0)`. -/
def gpuEntryCounted (targets : List Nat) (e : GpuEntry) : Bool :=
  targets.contains e.pid &&
    !(e.usedGpuMemory == none) && !(e.usedGpuMemory == some 0)

/-- The accumulation loop over one NVML listing, threading the shared
`used_bytes` and `found` state of `_get_gpu_mem_for_pids`. -/
def scanGpu (targets : List Nat) : Int × Bool → List GpuEntry → Int × Bool
  | acc, [] => acc
  | acc, e :: es =>
    if gpuEntryCounted targets e then
      scanGpu targets (acc.1 + e.usedGpuMemory.getD 0, true) es
    else
      scanGpu targets acc es

/-- `_get_gpu_mem_for_pids(target_pids)` at tick time `t`: `none` models
the source's `""`.  Each listing is fetched under its own `try`, so a
failed listing contributes nothing while the other still counts. -/
def get_gpu_mem_for_pids (env : Env) (t : Nat) (targets : List Nat) :
    Option ℚ :=
  if GPU_AVAILABLE env = false then none
  else
    let a1 :=
      match env.computeProcs t with
      | .ok es => scanGpu targets (0, false) es
      | .error _ => ((0 : Int), false)
    let a2 :=
      match env.graphicsProcs t with
      | .ok es => scanGpu targets a1 es
      | .error _ => a1
    if a2.2 = false then none
    else some ((a2.1 : ℚ) / 1024 / 1024)

/-- One data row of the CSV log, in the column order of the header. -/
structure Row where
  time : ℚ
  cpu_total_percent : ℚ
  rss_total_mb : ℚ
  threads_total : Nat
  num_procs : Nat
  gpu_util : Option ℚ
  gpu_mem_used_mb : Option ℚ
  proc_tree_gpu_mem_mb : Option ℚ
deriving DecidableEq

/-- The body of one iteration of the `while True` loop, for tick `i`
(resolution time `i + 1`): refresh the tree, aggregate metrics, query the
GPU, and build the row that `writer.writerow` appends.  Every sub-call
absorbs its own failures, so the body always completes with a row. -/
def monitorTick (env : Env) (i : Nat) (root : Handle) : Row :=
  let procs := get_proc_tree env (i + 1) root
  let agg := sum_cpu_mem_threads env (i + 1) procs
  let g := get_gpu_overall env (i + 1)
  let tg := get_gpu_mem_for_pids env (i + 1) (procs.map env.pidOf)
  { time := env.elapsed i
    cpu_total_percent := agg.cpu_sum
    rss_total_mb := agg.rss_sum_mb
    threads_total := agg.threads_sum
    num_procs := agg.alive
    gpu_util := g.1
    gpu_mem_used_mb := g.2
    proc_tree_gpu_mem_mb := tg }

/-- The data rows appended by a run whose loop executes `n` completed
ticks before the operator's interrupt arrives; each tick appends exactly
one row and flushes it. -/
def monitorRows (env : Env) (root : Handle) (n : Nat) : List Row :=
  (List.range n).map (fun i => monitorTick env i root)

/-- Handles whose cpu reading is included in tick `i`'s aggregated
`cpu_total_percent`: members of that tick's tree whose `cpu_percent` read
succeeds. -/
def countedHandles (env : Env) (i : Nat) (root : Handle) : List Handle :=
  (get_proc_tree env (i + 1) root).filter (okCpu env (i + 1))

/-- One line of the log file: the header line or a data row. -/
inductive LogLine
  | header
  | data (r : Row)
deriving DecidableEq

/-- The contents of `out_file` after a run of `monitor(pid, out_file)`
with `n` completed ticks, given the file's prior contents (`none` when the
file does not exist).  When the root lookup fails the function returns
before touching the file; otherwise `open(out_file, "w")` truncates or
creates the file and the header is written once, followed by the rows. -/
def monitorFile (env : Env) (pid : Nat) (prev : Option (List LogLine))
    (n : Nat) : Option (List LogLine) :=
  match safe_process env pid with
  | .error _ => prev
  | .ok none => prev
  | .ok (some root) =>
      some (LogLine.header :: (monitorRows env root n).map LogLine.data)

/-- What `monitor` prints before its loop: the startup failure report when
the root pid does not resolve. -/
def monitorPrinted (env : Env) (pid : Nat) : List String :=
  match safe_process env pid with
  | .ok none => ["Target process not found."]
  | _ => []

/-- The number of sampling ticks a run executes: none at all when the root
lookup fails at startup, otherwise the `n` ticks completed before the
interrupt. -/
def monitorTicks (env : Env) (pid : Nat) (n : Nat) : Nat :=
  match safe_process env pid with
  | .ok (some _) => n
  | _ => 0

/-- A baseline world: the root pid resolves, every process is alive with
cpu 2 percent, rss 1 MiB, one thread, and no GPU capability. -/
def envBase : Env where
  pidOf := fun h => h
  psutilProcess := fun pid => .ok pid
  children := fun _ _ => .ok []
  is_running := fun _ _ => .ok true
  cpu_percent := fun _ _ => .ok 2
  rss_bytes := fun _ _ => .ok 1048576
  num_threads := fun _ _ => .ok 1
  elapsed := fun i => (i : ℚ)
  gpuInit := .error .otherError
  gpu_util_rate := fun _ => .error .otherError
  gpu_mem_used := fun _ => .error .otherError
  computeProcs := fun _ => .error .otherError
  graphicsProcs := fun _ => .error .otherError

/-- A world in which the root process (handle 1) is alive at resolution
times 0, 1, 2 (the warm-up and the first two ticks) and is externally
killed before resolution time 3: from then on it reports not running and
every metric read raises NoSuchProcess. -/
def envC1 : Env :=
  { envBase with
    is_running := fun t _ => .ok (decide (t ≤ 2))
    cpu_percent := fun t _ =>
      if t ≤ 2 then .ok 2 else .error .noSuchProcess
    rss_bytes := fun t _ =>
      if t ≤ 2 then .ok 1048576 else .error .noSuchProcess
    num_threads := fun t _ =>
      if t ≤ 2 then .ok 1 else .error .noSuchProcess }

/-- A world in which the root (handle 1) has no children at warm-up time
but a child (handle 2) exists from resolution time 2 on, i.e. it is first
discovered on the second sampling tick. -/
def envC3 : Env :=
  { envBase with
    children := fun t _ => if 2 ≤ t then .ok [2] else .ok [] }

/-- A world in which handle 7's `cpu_percent` read succeeds (value 5) but
its `memory_info` read raises, so its cpu contribution lands in the sums
while `alive` is not incremented. -/
def envC4 : Env :=
  { envBase with
    cpu_percent := fun _ p => if p = 7 then .ok 5 else .ok 2
    rss_bytes := fun _ p =>
      if p = 7 then .error .noSuchProcess else .ok 1048576 }

/-- A world in which the root handle 10 has two child handles 21 and 31
that share the same pid (pids are handles mod 10), both running: the
candidate list contains two occurrences of pid 1. -/
def envC5 : Env :=
  { envBase with
    pidOf := fun h => h % 10
    children := fun _ r => if r = 10 then .ok [21, 31] else .ok [] }

/-- A world in which the root pid never resolves at startup. -/
def envC7 : Env :=
  { envBase with psutilProcess := fun _ => .error .noSuchProcess }

/-- A world in which every per-process metric read raises. -/
def envFail : Env :=
  { envBase with
    cpu_percent := fun _ _ => .error .otherError
    rss_bytes := fun _ _ => .error .otherError
    num_threads := fun _ _ => .error .otherError }

/-- A world with a working GPU whose compute listing reports pid 3 with a
`usedGpuMemory` of 0 and whose graphics listing is empty. -/
def envC9 : Env :=
  { envBase with
    gpuInit := .ok ()
    gpu_util_rate := fun _ => .ok 7
    gpu_mem_used := fun _ => .ok 1048576
    computeProcs := fun _ => .ok [⟨3, some 0⟩]
    graphicsProcs := fun _ => .ok [] }

/-- A world with an initialized GPU whose utilization query raises while
the memory query succeeds. -/
def envC10 : Env :=
  { envBase with
    gpuInit := .ok ()
    gpu_util_rate := fun _ => .error .otherError
    gpu_mem_used := fun _ => .ok 1048576 }

/-- A pre-existing data row for the log-truncation scenario. -/
def prevRow : Row :=
  { time := 0, cpu_total_percent := 0, rss_total_mb := 0, threads_total := 0
    num_procs := 0, gpu_util := none, gpu_mem_used_mb := none
    proc_tree_gpu_mem_mb := none }

lemma runningTrue_iff (r : Except Exn Bool) :
    runningTrue r = true ↔ r = .ok true := by
  cases r with
  | ok b => cases b <;> simp [runningTrue]
  | error e => simp [runningTrue]

lemma find?_pid_cons (env : Env) (pp : Nat) (q : Handle) (ps : List Handle) :
    (q :: ps).find? (fun x => env.pidOf x == pp) =
      if env.pidOf q = pp then some q
      else ps.find? (fun x => env.pidOf x == pp) := by
  by_cases h : env.pidOf q = pp
  · rw [if_pos h]
    exact List.find?_cons_of_pos _ (by simp [h])
  · rw [if_neg h]
    exact List.find?_cons_of_neg _ (by simp [h])

lemma treeLoop_mem_iff (env : Env) (t : Nat) (p : Handle) :
    ∀ (l : List Handle) (seen : List Nat),
      p ∈ treeLoop env t l seen ↔
        runningTrue (env.is_running t p) = true ∧ env.pidOf p ∉ seen ∧
          l.find? (fun q => env.pidOf q == env.pidOf p) = some p := by
  intro l
  induction l with
  | nil =>
    intro seen
    simp [treeLoop]
  | cons q ps ih =>
    intro seen
    simp only [treeLoop]
    rw [find?_pid_cons]
    by_cases hq : env.pidOf q ∈ seen
    · rw [if_pos hq, ih seen]
      by_cases hpq : env.pidOf q = env.pidOf p
      · rw [if_pos hpq]
        constructor
        · rintro ⟨hr, hns, hf⟩
          exact absurd (hpq ▸ hq) hns
        · rintro ⟨hr, hns, hf⟩
          exact absurd (hpq ▸ hq) hns
      · rw [if_neg hpq]
    · rw [if_neg hq]
      by_cases hpq : env.pidOf q = env.pidOf p
      · rw [if_pos hpq]
        by_cases hqr : runningTrue (env.is_running t q) = true
        · rw [if_pos hqr]
          simp only [List.mem_cons]
          rw [ih (env.pidOf q :: seen)]
          constructor
          · rintro (rfl | ⟨hr2, hns, hf⟩)
            · exact ⟨hqr, hpq ▸ hq, rfl⟩
            · exact absurd (by rw [← hpq]; exact List.mem_cons_self _ _) hns
          · rintro ⟨hr2, hns, heq⟩
            exact Or.inl (Option.some.inj heq).symm
        · rw [if_neg hqr]
          rw [ih (env.pidOf q :: seen)]
          constructor
          · rintro ⟨hr2, hns, hf⟩
            exact absurd (by rw [← hpq]; exact List.mem_cons_self _ _) hns
          · rintro ⟨hr2, hns, heq⟩
            have hqp : q = p := Option.some.inj heq
            rw [hqp] at hqr
            exact absurd hr2 hqr
      · rw [if_neg hpq]
        by_cases hqr : runningTrue (env.is_running t q) = true
        · rw [if_pos hqr]
          simp only [List.mem_cons]
          rw [ih (env.pidOf q :: seen)]
          constructor
          · rintro (rfl | ⟨hr2, hns, hf⟩)
            · exact absurd rfl hpq
            · exact ⟨hr2, fun c => hns (List.mem_cons_of_mem _ c), hf⟩
          · rintro ⟨hr2, hns, hf⟩
            refine Or.inr ⟨hr2, ?_, hf⟩
            intro c
            rcases List.mem_cons.mp c with h1 | h2
            · exact hpq h1.symm
            · exact hns h2
        · rw [if_neg hqr]
          rw [ih (env.pidOf q :: seen)]
          constructor
          · rintro ⟨hr2, hns, hf⟩
            exact ⟨hr2, fun c => hns (List.mem_cons_of_mem _ c), hf⟩
          · rintro ⟨hr2, hns, hf⟩
            refine ⟨hr2, ?_, hf⟩
            intro c
            rcases List.mem_cons.mp c with h1 | h2
            · exact hpq h1.symm
            · exact hns h2

lemma treeLoop_not_seen (env : Env) (t : Nat) (l : List Handle)
    (seen : List Nat) (p : Handle) (h : p ∈ treeLoop env t l seen) :
    env.pidOf p ∉ seen :=
  ((treeLoop_mem_iff env t p l seen).mp h).2.1

lemma treeLoop_pids_nodup (env : Env) (t : Nat) :
    ∀ (l : List Handle) (seen : List Nat),
      ((treeLoop env t l seen).map env.pidOf).Nodup := by
  intro l
  induction l with
  | nil =>
    intro seen
    simp [treeLoop]
  | cons q ps ih =>
    intro seen
    simp only [treeLoop]
    by_cases hq : env.pidOf q ∈ seen
    · rw [if_pos hq]
      exact ih seen
    · rw [if_neg hq]
      by_cases hqr : runningTrue (env.is_running t q) = true
      · rw [if_pos hqr]
        simp only [List.map_cons, List.nodup_cons]
        refine ⟨?_, ih _⟩
        intro hmem
        rcases List.mem_map.mp hmem with ⟨p, hp, hpe⟩
        exact treeLoop_not_seen env t ps (env.pidOf q :: seen) p hp
          (by rw [hpe]; exact List.mem_cons_self _ _)
      · rw [if_neg hqr]
        exact ih _

lemma get_proc_tree_pids_nodup (env : Env) (t : Nat) (root : Handle) :
    ((get_proc_tree env t root).map env.pidOf).Nodup :=
  treeLoop_pids_nodup env t (treeCandidates env t root) []

lemma get_proc_tree_nodup (env : Env) (t : Nat) (root : Handle) :
    (get_proc_tree env t root).Nodup :=
  (get_proc_tree_pids_nodup env t root).of_map

lemma get_proc_tree_mem_iff (env : Env) (t : Nat) (root p : Handle) :
    p ∈ get_proc_tree env t root ↔
      env.is_running t p = .ok true ∧
        (treeCandidates env t root).find?
          (fun q => env.pidOf q == env.pidOf p) = some p := by
  rw [get_proc_tree, treeLoop_mem_iff, runningTrue_iff]
  simp

lemma foldl_sampleOne_spec (env : Env) (t : Nat) :
    ∀ (procs : List Handle) (acc : Agg),
      procs.foldl (sampleOne env t) acc =
        { cpu_sum := acc.cpu_sum +
            ((procs.filter (okCpu env t)).map (cpuVal env t)).sum
          rss_sum_mb := acc.rss_sum_mb +
            ((procs.filter (okCpuRss env t)).map
              (fun p => rssVal env t p / 1024 / 1024)).sum
          threads_sum := acc.threads_sum +
            ((procs.filter (okAll env t)).map (thrVal env t)).sum
          alive := acc.alive + (procs.filter (okAll env t)).length } := by
  intro procs
  induction procs with
  | nil =>
    intro acc
    simp
  | cons p ps ih =>
    intro acc
    rw [List.foldl_cons, ih]
    cases hc : env.cpu_percent t p with
    | error e =>
      have h1 : okCpu env t p = false := by simp [okCpu, hc]
      have h2 : okCpuRss env t p = false := by simp [okCpuRss, h1]
      have h3 : okAll env t p = false := by simp [okAll, h2]
      simp [sampleOne, hc, List.filter_cons, h1, h2, h3]
    | ok c =>
      have h1 : okCpu env t p = true := by simp [okCpu, hc]
      have hcv : cpuVal env t p = c := by simp [cpuVal, hc]
      cases hr : env.rss_bytes t p with
      | error e =>
        have h2 : okCpuRss env t p = false := by simp [okCpuRss, hr]
        have h3 : okAll env t p = false := by simp [okAll, h2]
        simp [sampleOne, hc, hr, List.filter_cons, h1, h2, h3, hcv,
          add_assoc]
      | ok r =>
        have h2 : okCpuRss env t p = true := by simp [okCpuRss, okCpu, hc, hr]
        have hrv : rssVal env t p = r := by simp [rssVal, hr]
        cases hn : env.num_threads t p with
        | error e =>
          have h3 : okAll env t p = false := by simp [okAll, h2, hn]
          simp [sampleOne, hc, hr, hn, List.filter_cons, h1, h2, h3, hcv,
            hrv, add_assoc]
        | ok m =>
          have h3 : okAll env t p = true := by simp [okAll, h2, hn]
          have hnv : thrVal env t p = m := by simp [thrVal, hn]
          simp [sampleOne, hc, hr, hn, List.filter_cons, h1, h2, h3, hcv,
            hrv, hnv, add_assoc]
          omega

lemma sum_cpu_mem_threads_spec (env : Env) (t : Nat) (procs : List Handle) :
    sum_cpu_mem_threads env t procs =
      { cpu_sum := ((procs.filter (okCpu env t)).map (cpuVal env t)).sum
        rss_sum_mb := ((procs.filter (okCpuRss env t)).map
          (fun p => rssVal env t p / 1024 / 1024)).sum
        threads_sum := ((procs.filter (okAll env t)).map (thrVal env t)).sum
        alive := (procs.filter (okAll env t)).length } := by
  rw [sum_cpu_mem_threads, foldl_sampleOne_spec]
  simp

lemma scanGpu_spec (targets : List Nat) :
    ∀ (es : List GpuEntry) (b : Int) (f : Bool),
      scanGpu targets (b, f) es =
        (b + ((es.filter (gpuEntryCounted targets)).map
            (fun e => e.usedGpuMemory.getD 0)).sum,
         f || !(es.filter (gpuEntryCounted targets)).isEmpty) := by
  intro es
  induction es with
  | nil =>
    intro b f
    simp [scanGpu]
  | cons e es ih =>
    intro b f
    by_cases hce : gpuEntryCounted targets e = true
    · rw [scanGpu, if_pos hce, ih]
      simp [List.filter_cons, hce, add_assoc]
    · rw [scanGpu, if_neg hce, ih]
      simp [List.filter_cons, hce]

lemma count_header_map_data (rs : List Row) :
    ((rs.map LogLine.data).count LogLine.header) = 0 := by
  rw [List.count_eq_zero]
  intro h
  rcases List.mem_map.mp h with ⟨r, _, hr⟩
  exact LogLine.noConfusion hr

/-- C1: evaluation of the loop in a world (`envC1`) where the root process
is killed externally after two completed ticks.  The claim says the run
then ends with exactly 2 data rows.  In the code the
`except psutil.NoSuchProcess: break` is unreachable: `_get_proc_tree`
swallows the enumeration failure and `is_running` returns False without
raising, so every later tick still appends a row with `num_procs = 0`.
With the loop allowed to run 5 ticks, rows 3, 4, 5 exist and carry zeroed
sums. -/
theorem c1_rows_keep_appending_after_root_death :
    (monitorRows envC1 1 5).length = 5 ∧
    (monitorRows envC1 1 5)[1]? = some (monitorTick envC1 1 1) ∧
    (monitorRows envC1 1 5)[2]? = some (monitorTick envC1 2 1) ∧
    (monitorRows envC1 1 5)[4]? = some (monitorTick envC1 4 1) ∧
    monitorTick envC1 1 1 =
      { time := 1, cpu_total_percent := 2, rss_total_mb := 1,
        threads_total := 1, num_procs := 1, gpu_util := none,
        gpu_mem_used_mb := none, proc_tree_gpu_mem_mb := none } ∧
    monitorTick envC1 2 1 =
      { time := 2, cpu_total_percent := 0, rss_total_mb := 0,
        threads_total := 0, num_procs := 0, gpu_util := none,
        gpu_mem_used_mb := none, proc_tree_gpu_mem_mb := none } ∧
    monitorTick envC1 4 1 =
      { time := 4, cpu_total_percent := 0, rss_total_mb := 0,
        threads_total := 0, num_procs := 0, gpu_util := none,
        gpu_mem_used_mb := none, proc_tree_gpu_mem_mb := none } := by
  have ht1 : get_proc_tree envC1 2 1 = [1] := by decide
  have ht2 : get_proc_tree envC1 3 1 = [] := by decide
  have ht4 : get_proc_tree envC1 5 1 = [] := by decide
  have hagg1 : sum_cpu_mem_threads envC1 2 [1] =
      { cpu_sum := 2, rss_sum_mb := 1, threads_sum := 1, alive := 1 } := by
    norm_num [sum_cpu_mem_threads, sampleOne, envC1, envBase]
  refine ⟨by simp [monitorRows], by simp [monitorRows],
    by simp [monitorRows], by simp [monitorRows], ?_, ?_, ?_⟩
  · simp only [monitorTick, ht1, hagg1]
    norm_num [get_gpu_overall, get_gpu_mem_for_pids, GPU_AVAILABLE,
      envC1, envBase]
  · simp only [monitorTick, ht2]
    norm_num [sum_cpu_mem_threads, get_gpu_overall, get_gpu_mem_for_pids,
      GPU_AVAILABLE, envC1, envBase]
  · simp only [monitorTick, ht4]
    norm_num [sum_cpu_mem_threads, get_gpu_overall, get_gpu_mem_for_pids,
      GPU_AVAILABLE, envC1, envBase]

/-- C2 counterexample: running the monitor against an existing log file
(header plus one data row) truncates it: the prior data row is gone, so
the claim that pre-existing rows are preserved and the file is appended to
is false. -/
theorem c2_counterexample_existing_file_truncated :
    monitorFile envBase 5 (some [LogLine.header, LogLine.data prevRow]) 0 =
      some [LogLine.header] ∧
    monitorFile envBase 5 (some [LogLine.header, LogLine.data prevRow]) 0 ≠
      some [LogLine.header, LogLine.data prevRow] := by
  decide

/-- C2 (amended): whenever the root pid resolves, `open(out_file, "w")`
creates or truncates the destination, discarding pre-existing contents;
the resulting file is the header followed by the run's data rows, and the
header occurs exactly once in it. -/
theorem c2_theorem_file_truncated_header_once (env : Env) (pid : Nat)
    (prev : Option (List LogLine)) (n : Nat) (root : Handle)
    (h : safe_process env pid = .ok (some root)) :
    monitorFile env pid prev n =
      some (LogLine.header :: (monitorRows env root n).map LogLine.data) ∧
    ∀ l, monitorFile env pid prev n = some l →
      l.count LogLine.header = 1 := by
  have hm : monitorFile env pid prev n =
      some (LogLine.header :: (monitorRows env root n).map LogLine.data) := by
    simp [monitorFile, h]
  refine ⟨hm, ?_⟩
  intro l hl
  rw [hm] at hl
  have hl2 := Option.some.inj hl
  rw [← hl2, List.count_cons_self, count_header_map_data]

/-- Witness for the amended C2 theorem at a concrete world. -/
theorem c2_theorem_witness :
    monitorFile envBase 5 none 0 =
      some (LogLine.header :: (monitorRows envBase 5 0).map LogLine.data) :=
  (c2_theorem_file_truncated_header_once envBase 5 none 0 5 rfl).1

/-- C3 counterexample: in `envC3` the child handle 2 first enters the tree
on the second tick; its cpu reading is included in that tick's aggregation
although the warm-up phase performed zero discarded reads on it, refuting
the claim that every handle entering the tree receives exactly one
discarded warm-up read before inclusion. -/
theorem c3_counterexample_late_child_not_warmed :
    2 ∈ countedHandles envC3 1 1 ∧
    warmupReads envC3 1 = [1] ∧
    (warmupReads envC3 1).count 2 = 0 := by
  decide

/-- C3 (amended): the discarded warm-up reads are exactly one per member
of the tree resolved once before the loop; handles first entering the tree
on later ticks receive none. -/
theorem c3_theorem_warmup_initial_tree_only (env : Env) (root p : Handle) :
    (warmupReads env root).count p =
      if p ∈ get_proc_tree env 0 root then 1 else 0 := by
  by_cases h : p ∈ get_proc_tree env 0 root
  · rw [if_pos h]
    exact List.count_eq_one_of_mem (get_proc_tree_nodup env 0 root) h
  · rw [if_neg h]
    exact List.count_eq_zero.mpr h

/-- C4 counterexample: in `envC4` handle 7's cpu read succeeds (5 percent)
but its memory read fails, so 5 lands in `cpu_sum` while `alive` stays 0:
a process contributed to a sum without being counted in `num_procs`,
refuting the claim's final clause. -/
theorem c4_counterexample_partial_contribution :
    (sum_cpu_mem_threads envC4 1 [7]).alive = 0 ∧
    (sum_cpu_mem_threads envC4 1 [7]).cpu_sum = 5 := by
  constructor <;> norm_num [sum_cpu_mem_threads, sampleOne, envC4, envBase]

/-- C4 (amended): `num_procs` counts exactly the processes whose three
reads all succeed, and is at most the number of resolved processes; but a
process with a failing later read still contributes to the sums of the
reads that succeeded before the failure: `cpu_sum` ranges over processes
with a successful cpu read, `rss_sum` over those whose cpu and rss reads
both succeed, `threads_sum` over those with all three. -/
theorem c4_theorem_sampler_characterization (env : Env) (t : Nat)
    (procs : List Handle) :
    sum_cpu_mem_threads env t procs =
      { cpu_sum := ((procs.filter (okCpu env t)).map (cpuVal env t)).sum
        rss_sum_mb := ((procs.filter (okCpuRss env t)).map
          (fun p => rssVal env t p / 1024 / 1024)).sum
        threads_sum := ((procs.filter (okAll env t)).map (thrVal env t)).sum
        alive := (procs.filter (okAll env t)).length } ∧
    (sum_cpu_mem_threads env t procs).alive ≤ procs.length := by
  refine ⟨sum_cpu_mem_threads_spec env t procs, ?_⟩
  rw [sum_cpu_mem_threads_spec]
  exact List.length_filter_le _ _

/-- C5 counterexample: in `envC5` the candidate list holds handles 21 and
31 with the same pid, both running; the resolver keeps 21 (first seen) and
drops 31, so de-duplication does not keep the last-seen occurrence. -/
theorem c5_counterexample_first_seen_kept :
    get_proc_tree envC5 1 10 = [10, 21] ∧
    31 ∉ get_proc_tree envC5 1 10 ∧
    envC5.is_running 1 31 = .ok true ∧
    envC5.pidOf 31 = envC5.pidOf 21 :=
  ⟨by decide, by decide, rfl, by decide⟩

/-- C5 (amended): the resolver returns pairwise distinct identifiers;
every returned process confirmed itself running at inspection time, a
process failing that check being dropped silently; and membership is
characterized by first-seen de-duplication: a handle is returned iff it is
running and is the first candidate carrying its identifier. -/
theorem c5_theorem_tree_dedup_first_seen_liveness (env : Env) (t : Nat)
    (root : Handle) :
    ((get_proc_tree env t root).map env.pidOf).Nodup ∧
    (∀ p ∈ get_proc_tree env t root, env.is_running t p = .ok true) ∧
    (∀ p, p ∈ get_proc_tree env t root ↔
      env.is_running t p = .ok true ∧
        (treeCandidates env t root).find?
          (fun q => env.pidOf q == env.pidOf p) = some p) := by
  refine ⟨get_proc_tree_pids_nodup env t root, ?_, ?_⟩
  · intro p hp
    exact ((get_proc_tree_mem_iff env t root p).mp hp).1
  · intro p
    exact get_proc_tree_mem_iff env t root p

/-- Witness for the C5 theorem at a concrete world. -/
theorem c5_theorem_witness : envBase.is_running 1 1 = Except.ok true :=
  (c5_theorem_tree_dedup_first_seen_liveness envBase 1 1).2.1 1 (by decide)

/-- C6: the sampler is total with worst case all-zero sums and zero alive
count (here instantiated to the worst case: every cpu read fails, which by
the source's read order prevents any contribution at all), and the loop
body never aborts: a run of `n` ticks yields exactly `n` rows for every
environment, metric, tree-enumeration and GPU failures all being absorbed
inside the helpers. -/
theorem c6_theorem_tick_failures_absorbed (env : Env) :
    (∀ t procs,
      (∀ p ∈ procs, ∃ e, env.cpu_percent t p = .error e) →
        sum_cpu_mem_threads env t procs = ⟨0, 0, 0, 0⟩) ∧
    (∀ root n, (monitorRows env root n).length = n) := by
  constructor
  · intro t procs h
    rw [sum_cpu_mem_threads_spec]
    have h1 : procs.filter (okCpu env t) = [] := by
      rw [List.filter_eq_nil_iff]
      intro p hp
      rcases h p hp with ⟨e, he⟩
      simp [okCpu, he]
    have h2 : procs.filter (okCpuRss env t) = [] := by
      rw [List.filter_eq_nil_iff]
      intro p hp
      rcases h p hp with ⟨e, he⟩
      simp [okCpuRss, okCpu, he]
    have h3 : procs.filter (okAll env t) = [] := by
      rw [List.filter_eq_nil_iff]
      intro p hp
      rcases h p hp with ⟨e, he⟩
      simp [okAll, okCpuRss, okCpu, he]
    rw [h1, h2, h3]
    simp
  · intro root n
    simp [monitorRows]

/-- Witness for the C6 theorem at a concrete all-failing world. -/
theorem c6_theorem_witness :
    sum_cpu_mem_threads envFail 0 [1, 2] = ⟨0, 0, 0, 0⟩ :=
  (c6_theorem_tick_failures_absorbed envFail).1 0 [1, 2]
    (fun _ _ => ⟨Exn.otherError, rfl⟩)

/-- C7: when the root pid raises NoSuchProcess at startup, the monitor
reports the failure and returns before `open`: the output file is left
exactly as it was (in particular not created) and no tick runs. -/
theorem c7_theorem_startup_failure_no_write (env : Env) (pid : Nat)
    (prev : Option (List LogLine)) (n : Nat)
    (h : env.psutilProcess pid = .error .noSuchProcess) :
    monitorFile env pid prev n = prev ∧
    monitorTicks env pid n = 0 ∧
    monitorPrinted env pid = ["Target process not found."] := by
  have hs : safe_process env pid = .ok none := by
    simp [safe_process, h]
  exact ⟨by simp [monitorFile, hs], by simp [monitorTicks, hs],
    by simp [monitorPrinted, hs]⟩

/-- Witness for the C7 theorem at a concrete world with no file. -/
theorem c7_theorem_witness :
    monitorFile envC7 1 none 3 = none ∧ monitorTicks envC7 1 3 = 0 ∧
    monitorPrinted envC7 1 = ["Target process not found."] :=
  c7_theorem_startup_failure_no_write envC7 1 none 3 rfl

/-- C8: when NVML initialization failed at startup, `GPU_AVAILABLE` is
false for the whole run and on every tick all three GPU columns are the
empty string (modelled `none`, distinct from the number 0). -/
theorem c8_theorem_gpu_disabled_fields_empty (env : Env) (e : Exn)
    (h : env.gpuInit = .error e) (i : Nat) (root : Handle) :
    (monitorTick env i root).gpu_util = none ∧
    (monitorTick env i root).gpu_mem_used_mb = none ∧
    (monitorTick env i root).proc_tree_gpu_mem_mb = none := by
  have hg : GPU_AVAILABLE env = false := by
    simp [GPU_AVAILABLE, h]
  refine ⟨?_, ?_, ?_⟩ <;>
    simp [monitorTick, get_gpu_overall, get_gpu_mem_for_pids, hg]

/-- Witness for the C8 theorem at a concrete GPU-less world. -/
theorem c8_theorem_witness :
    (monitorTick envBase 0 1).gpu_util = none ∧
    (monitorTick envBase 0 1).gpu_mem_used_mb = none ∧
    (monitorTick envBase 0 1).proc_tree_gpu_mem_mb = none :=
  c8_theorem_gpu_disabled_fields_empty envBase Exn.otherError rfl 0 1

/-- C9: with the GPU available, the per-process GPU memory result equals:
filter the compute listing followed by the graphics listing (a failed
listing contributing nothing, so a graphics failure leaves the compute
contribution intact) down to entries whose pid is in the target set and
whose `usedGpuMemory` is neither None nor 0; if nothing matched the result
is the empty string (`none`), otherwise the matched bytes summed and
converted to MB. -/
theorem c9_theorem_gpu_mem_for_pids_spec (env : Env) (t : Nat)
    (targets : List Nat) (h : GPU_AVAILABLE env = true) :
    get_gpu_mem_for_pids env t targets =
      (let ces := match env.computeProcs t with
         | .ok es => es
         | .error _ => []
       let ges := match env.graphicsProcs t with
         | .ok es => es
         | .error _ => []
       let ms := (ces ++ ges).filter (gpuEntryCounted targets)
       if ms = [] then none
       else some
         (((ms.map (fun e => e.usedGpuMemory.getD 0)).sum : ℚ) /
           1024 / 1024)) := by
  have hng : ¬ GPU_AVAILABLE env = false := by
    rw [h]
    exact Bool.noConfusion
  cases hc : env.computeProcs t with
  | ok ces =>
    cases hg2 : env.graphicsProcs t with
    | ok ges =>
      simp only [get_gpu_mem_for_pids, hc, hg2, scanGpu_spec, if_neg hng,
        List.filter_append, List.map_append, List.sum_append,
        Bool.false_or, zero_add]
      by_cases e1 : ces.filter (gpuEntryCounted targets) = []
      · by_cases e2 : ges.filter (gpuEntryCounted targets) = []
        · simp [e1, e2, Function.comp_def]
        · simp [e1, e2, Function.comp_def]
      · by_cases e2 : ges.filter (gpuEntryCounted targets) = []
        · simp [e1, e2, Function.comp_def]
        · simp [e1, e2, Function.comp_def]
    | error e0 =>
      simp only [get_gpu_mem_for_pids, hc, hg2, scanGpu_spec, if_neg hng,
        List.filter_append, List.map_append, List.sum_append,
        Bool.false_or, zero_add, List.append_nil]
      by_cases e1 : ces.filter (gpuEntryCounted targets) = []
      · simp [e1, Function.comp_def]
      · simp [e1, Function.comp_def]
  | error e0 =>
    cases hg2 : env.graphicsProcs t with
    | ok ges =>
      simp only [get_gpu_mem_for_pids, hc, hg2, scanGpu_spec, if_neg hng,
        Bool.false_or, zero_add, List.nil_append]
      by_cases e2 : ges.filter (gpuEntryCounted targets) = []
      · simp [e2, Function.comp_def]
      · simp [e2, Function.comp_def]
    | error e1 =>
      simp [get_gpu_mem_for_pids, hc, hg2, if_neg hng]

/-- Witness for the C9 theorem: a compute entry with `usedGpuMemory` 0 in
the target set does not count, and with nothing else matching the result
is empty. -/
theorem c9_theorem_witness : get_gpu_mem_for_pids envC9 1 [3] = none := by
  rw [c9_theorem_gpu_mem_for_pids_spec envC9 1 [3] rfl]
  decide

/-- C10: the two device-wide GPU columns of a row are coupled: one is
empty iff the other is, and a failure of either underlying device query on
a tick blanks both for that tick. -/
theorem c10_theorem_device_gpu_fields_coupled (env : Env) (i : Nat)
    (root : Handle) :
    ((monitorTick env i root).gpu_util = none ↔
      (monitorTick env i root).gpu_mem_used_mb = none) ∧
    (((∃ e, env.gpu_util_rate (i + 1) = .error e) ∨
        (∃ e, env.gpu_mem_used (i + 1) = .error e)) →
      (monitorTick env i root).gpu_util = none ∧
      (monitorTick env i root).gpu_mem_used_mb = none) := by
  have hu : (monitorTick env i root).gpu_util =
      (get_gpu_overall env (i + 1)).1 := rfl
  have hm : (monitorTick env i root).gpu_mem_used_mb =
      (get_gpu_overall env (i + 1)).2 := rfl
  rw [hu, hm]
  cases hga : GPU_AVAILABLE env with
  | false => simp [get_gpu_overall, hga]
  | true =>
    cases h1 : env.gpu_util_rate (i + 1) with
    | error e1 =>
      cases h2 : env.gpu_mem_used (i + 1) with
      | ok m => simp [get_gpu_overall, hga, h1, h2]
      | error e2 => simp [get_gpu_overall, hga, h1, h2]
    | ok u =>
      cases h2 : env.gpu_mem_used (i + 1) with
      | error e2 => simp [get_gpu_overall, hga, h1, h2]
      | ok m =>
        constructor
        · simp [get_gpu_overall, hga, h1, h2]
        · rintro (⟨e, he⟩ | ⟨e, he⟩)
          · exact Except.noConfusion he
          · exact Except.noConfusion he

/-- Witness for the C10 theorem: a failing utilization query blanks both
device-wide columns. -/
theorem c10_theorem_witness :
    (monitorTick envC10 0 1).gpu_util = none ∧
    (monitorTick envC10 0 1).gpu_mem_used_mb = none :=
  (c10_theorem_device_gpu_fields_coupled envC10 0 1).2
    (Or.inl ⟨Exn.otherError, rfl⟩)

end MonitorProc
